import Mathlib

/- Verification of the build-error auto-fix engine of the deployease CLI.

   Source of the model:
     * src/services/autoFixEngine.js — `AutoFixEngine.analyzeError`,
       `AutoFixEngine.isDevDependency`, `AutoFixEngine.applyFix`;
     * src/commands/deploy.js — `detectProjectType`, `buildWithAutoFix`.

   JavaScript strings are modelled as Lean `String` / `List Char`.  The
   case-insensitive regular expressions used by the engine are compiled by
   hand into executable matching functions; each definition documents the
   regular expression it implements.  `package.json` is modelled as a
   `PkgFile` (missing file / unparseable file / parsed manifest), external
   collaborators (process execution, the package installer, the user
   confirmation prompt) as explicit function parameters. -/

namespace DeployEase

/-- ASCII lower-casing of a character list (JS `toLowerCase`, and the `i`
flag of the engine's regular expressions; all patterns are pure ASCII). -/
def lc (s : List Char) : List Char := s.map Char.toLower

/-- `p` is a character-exact prefix of `t`. -/
def isPrefB : List Char → List Char → Bool
  | [], _ => true
  | _ :: _, [] => false
  | p :: ps, c :: cs => p == c && isPrefB ps cs

/-- Some position of `t` starts with `p`: JS `String.prototype.includes`,
and `RegExp.test` for a pattern that is a literal. -/
def hasSub (p : List Char) : List Char → Bool
  | [] => isPrefB p []
  | c :: cs => isPrefB p (c :: cs) || hasSub p cs

/-- The suffix of `t` that follows the first occurrence of `p`, when `p`
occurs in `t`. -/
def dropAfter1 (p : List Char) : List Char → Option (List Char)
  | [] => if isPrefB p [] then some [] else none
  | c :: cs => if isPrefB p (c :: cs) then some ((c :: cs).drop p.length) else dropAfter1 p cs

/-- JS line terminators, the characters `.` does not match in a JS regex. -/
def isLineTerm (c : Char) : Bool :=
  c == '\n' || c == '\r' || c == '\u2028' || c == '\u2029'

/-- Split at line terminators (each terminator character ends a line). -/
def jsLines : List Char → List (List Char)
  | [] => [[]]
  | c :: cs =>
    let r := jsLines cs
    if isLineTerm c then [] :: r
    else
      match r with
      | l :: rest => (c :: l) :: rest
      | [] => [[c]]

/-- `RegExp.test` of `a.*b` on a single line: an occurrence of `a` followed
(at or after its end) by an occurrence of `b`.  Taking the first occurrence
of `a` is equivalent to the existential reading: if `a` occurs at `i` and
`b` at `j ≥ i + |a|`, then `b` also occurs after the first occurrence of
`a`, which starts no later than `i`. -/
def inOrder2 (a b : List Char) (l : List Char) : Bool :=
  match dropAfter1 a l with
  | some r => hasSub b r
  | none => false

/-- `RegExp.test` of `a.*b.*c` on a single line (same reduction to first
occurrences as `inOrder2`). -/
def inOrder3 (a b c : List Char) (l : List Char) : Bool :=
  match dropAfter1 a l with
  | some r => inOrder2 b c r
  | none => false

/-- Case-insensitive `includes` / `RegExp.test` of a literal pattern. -/
def cIns (t pat : String) : Bool := hasSub (lc pat.toList) (lc t.toList)

/-- Case-sensitive `String.prototype.includes`. -/
def sContains (t pat : String) : Bool := hasSub pat.toList t.toList

/-- Case-insensitive `RegExp.test` of `a.*b`: since `.` matches no line
terminator and `a`, `b` contain none, a match lies within one line. -/
def ciLine2 (t a b : String) : Bool :=
  (jsLines (lc t.toList)).any (fun l => inOrder2 (lc a.toList) (lc b.toList) l)

/-- Case-insensitive `RegExp.test` of `a.*b.*c`. -/
def ciLine3 (t a b c : String) : Bool :=
  (jsLines (lc t.toList)).any (fun l => inOrder3 (lc a.toList) (lc b.toList) (lc c.toList) l)

/-- Drop a leading run of ASCII digits. -/
def dropDigits : List Char → List Char
  | [] => []
  | c :: cs => if c.isDigit then dropDigits cs else c :: cs

/-- `TS\d+:` matches here (input already lower-cased): `ts`, one or more
digits, then `:`.  `:` is not a digit, so the greedy `\d+` admits exactly
the maximal digit run. -/
def tsAt : List Char → Bool
  | 't' :: 's' :: c :: cs =>
    c.isDigit &&
      (match dropDigits cs with
       | ':' :: _ => true
       | _ => false)
  | _ => false

/-- `RegExp.test` of `TS\d+:` with the `i` flag (input lower-cased). -/
def tsDiag : List Char → Bool
  | [] => false
  | c :: cs => tsAt (c :: cs) || tsDiag cs

/-! ## The eight trigger predicates of `AutoFixEngine.analyzeError`
(src/services/autoFixEngine.js, the `if` conditions of patterns 1–8). -/

/-- Pattern 1 trigger (autoFixEngine.js lines 32–37):
`/cannot find module|module not found|cannot resolve/i`, or
`/missing.*package/i`, or
`/react-scripts.*not found|react-scripts: command not found/i`, or
`/sh:.*react-scripts:.*not found/i`. -/
def pattern1 (t : String) : Bool :=
  cIns t "cannot find module" || cIns t "module not found" || cIns t "cannot resolve" ||
  ciLine2 t "missing" "package" ||
  ciLine2 t "react-scripts" "not found" || cIns t "react-scripts: command not found" ||
  ciLine3 t "sh:" "react-scripts:" "not found"

/-- Pattern 2 trigger (line 89): `/ENOENT.*node_modules|Cannot find module.*node_modules/i`. -/
def pattern2 (t : String) : Bool :=
  ciLine2 t "ENOENT" "node_modules" || ciLine2 t "Cannot find module" "node_modules"

/-- Pattern 3 trigger (line 105): `/Missing script: "build"|npm ERR! missing script/i`. -/
def pattern3 (t : String) : Bool :=
  cIns t "Missing script: \"build\"" || cIns t "npm ERR! missing script"

/-- Pattern 4 trigger (line 145): `/SyntaxError|ParseError|Unexpected token/i`. -/
def pattern4 (t : String) : Bool :=
  cIns t "SyntaxError" || cIns t "ParseError" || cIns t "Unexpected token"

/-- Pattern 5 trigger (line 162): `/Type error|TS\d+:/i`. -/
def pattern5 (t : String) : Bool :=
  cIns t "Type error" || tsDiag (lc t.toList)

/-- Pattern 6 trigger (line 178): `/EACCES|permission denied|EACCES/i`
(the source repeats `EACCES`; as a disjunction the repetition is absorbed). -/
def pattern6 (t : String) : Bool :=
  cIns t "EACCES" || cIns t "permission denied" || cIns t "EACCES"

/-- Pattern 7 trigger (line 194): `/JavaScript heap out of memory|FATAL ERROR.*heap/i`. -/
def pattern7 (t : String) : Bool :=
  cIns t "JavaScript heap out of memory" || ciLine2 t "FATAL ERROR" "heap"

/-- Pattern 8 trigger (line 210): `/EADDRINUSE|port.*already in use/i`. -/
def pattern8 (t : String) : Bool :=
  cIns t "EADDRINUSE" || ciLine2 t "port" "already in use"

/-! ## Module-name extraction (autoFixEngine.js lines 38–44)

`errorText.match(/Cannot find module ['"]([^'"]+)['"]|Module not found:
Can't resolve ['"]([^'"]+)['"]|react-scripts['"]? not found|sh:
([\w-]+): command not found|npm ERR! missing: ([\w-@\/]+)/i)`:
the leftmost position wins, and at a position the five alternatives are
tried left to right.  Each alternative sets at most one capturing group,
so the match result is modelled as which alternative matched together
with its captured text. -/

/-- Case-insensitive literal prefix: when `lc p` is a prefix of `lc t`,
the remainder of `t` (captures keep the original case, as in JS). -/
def ciPrefDrop : List Char → List Char → Option (List Char)
  | [], t => some t
  | _ :: _, [] => none
  | p :: ps, c :: cs => if p.toLower == c.toLower then ciPrefDrop ps cs else none

/-- Case-sensitive literal prefix with remainder. -/
def sPrefDrop : List Char → List Char → Option (List Char)
  | [], t => some t
  | _ :: _, [] => none
  | p :: ps, c :: cs => if p == c then sPrefDrop ps cs else none

/-- The quote characters of the class `['"]`. -/
def isQuote (c : Char) : Bool := c == '\'' || c == '"'

/-- `['"]([^'"]+)['"]` at the start of `r`: an opening quote, a nonempty
run of non-quote characters (the greedy `[^'"]+` stops exactly at the
next quote), and a closing quote (either kind). Returns the group. -/
def quoted (r : List Char) : Option (List Char) :=
  match r with
  | c :: rest =>
    if isQuote c then
      let g := rest.takeWhile (fun x => !isQuote x)
      if g.isEmpty then none
      else
        match rest.dropWhile (fun x => !isQuote x) with
        | _ :: _ => some g
        | [] => none
    else none
  | [] => none

/-- The result of the module-extraction regex: a captured group (from
alternatives 1, 2, 4 or 5) or the group-less `react-scripts` alternative. -/
inductive ModMatch
  | grp (s : String)
  | reactScripts
deriving DecidableEq

/-- `\w` of a JS regex with `-`: `[A-Za-z0-9_-]`. -/
def wordDash (c : Char) : Bool := c.isAlpha || c.isDigit || c == '_' || c == '-'

/-- The class `[\w-@\/]` of alternative 5. -/
def wordDashAtSlash (c : Char) : Bool := wordDash c || c == '@' || c == '/'

/-- Alternative 1 at this position: `Cannot find module ['"]([^'"]+)['"]`. -/
def alt1At (t : List Char) : Option ModMatch :=
  ((ciPrefDrop "Cannot find module ".toList t).bind quoted).map (fun g => ModMatch.grp (String.mk g))

/-- Alternative 2 at this position: `Module not found: Can't resolve ['"]([^'"]+)['"]`. -/
def alt2At (t : List Char) : Option ModMatch :=
  ((ciPrefDrop "Module not found: Can't resolve ".toList t).bind quoted).map
    (fun g => ModMatch.grp (String.mk g))

/-- ` not found` starts here. -/
def notFoundAfter (r : List Char) : Bool := (ciPrefDrop " not found".toList r).isSome

/-- Alternative 3 at this position: `react-scripts['"]? not found`
(the optional quote tried with and without). -/
def alt3At (t : List Char) : Bool :=
  match ciPrefDrop "react-scripts".toList t with
  | some (q :: r2) => (isQuote q && notFoundAfter r2) || notFoundAfter (q :: r2)
  | some [] => false
  | none => false

/-- Alternative 4 at this position: `sh: ([\w-]+): command not found`
(`:` is outside `[\w-]`, so the greedy `+` admits exactly the maximal run). -/
def alt4At (t : List Char) : Option ModMatch :=
  match ciPrefDrop "sh: ".toList t with
  | some r =>
    let g := r.takeWhile wordDash
    if g.isEmpty then none
    else if (ciPrefDrop ": command not found".toList (r.drop g.length)).isSome then
      some (ModMatch.grp (String.mk g))
    else none
  | none => none

/-- Alternative 5 at this position: `npm ERR! missing: ([\w-@\/]+)`. -/
def alt5At (t : List Char) : Option ModMatch :=
  match ciPrefDrop "npm ERR! missing: ".toList t with
  | some r =>
    let g := r.takeWhile wordDashAtSlash
    if g.isEmpty then none else some (ModMatch.grp (String.mk g))
  | none => none

/-- All five alternatives at one position, in the regex's order. -/
def matchAt (t : List Char) : Option ModMatch :=
  match alt1At t with
  | some m => some m
  | none =>
    match alt2At t with
    | some m => some m
    | none =>
      if alt3At t then some ModMatch.reactScripts
      else
        match alt4At t with
        | some m => some m
        | none => alt5At t

/-- `String.prototype.match` of the extraction regex: the leftmost
matching position (no alternative matches the empty suffix, so the scan
ends at the empty list). -/
def moduleMatch : List Char → Option ModMatch
  | [] => none
  | c :: cs =>
    match matchAt (c :: cs) with
    | some m => some m
    | none => moduleMatch cs

/-! ## Data model -/

/-- An issue pushed by `analyzeError` (`issues.push({...})`). -/
structure Issue where
  type : String
  severity : String
  message : String
  package : Option String
deriving DecidableEq

/-- A suggested fix pushed by `analyzeError` (`suggestedFixes.push({...})`).
`package` and `script` model the fields only some fixes carry. -/
structure Fix where
  type : String
  description : String
  action : String
  autoFixable : Bool
  package : Option String
  script : Option (List (String × String))
deriving DecidableEq

/-- The return value of `analyzeError` (autoFixEngine.js lines 225–229). -/
structure AnalysisResult where
  issues : List Issue
  suggestedFixes : List Fix
  canAutoFix : Bool
deriving DecidableEq

/-- The parts of `package.json` the engine reads or writes.  A JS object is
an association list with unique keys (`JSON.parse` keeps one entry per
key); values are strings. -/
structure Manifest where
  dependencies : List (String × String)
  devDependencies : List (String × String)
  scripts : Option (List (String × String))
deriving DecidableEq

/-- The state of the `package.json` file at the engine's working
directory: absent, present but not valid JSON (`JSON.parse` throws), or
parsed. -/
inductive PkgFile
  | missing
  | invalid
  | parsed (pj : Manifest)
deriving DecidableEq

/-- Property lookup on a JS object. -/
def jsGet (o : List (String × String)) (k : String) : Option String :=
  (o.find? (fun p => p.1 == k)).map (fun p => p.2)

/-- Truthiness of `o[k]` for a string-valued property: present and not `""`. -/
def truthyKey (o : List (String × String)) (k : String) : Bool :=
  match jsGet o k with
  | some v => v != ""
  | none => false

/-- `{...base, k: v}` for one key of a JS object spread: an existing key
keeps its position and takes the new value, a new key is appended. -/
def setKey (l : List (String × String)) (k v : String) : List (String × String) :=
  if l.any (fun p => p.1 == k) then l.map (fun p => if p.1 == k then (k, v) else p)
  else l ++ [(k, v)]

/-- `{...base, ...upd}` on JS objects. -/
def mergeObj (base upd : List (String × String)) : List (String × String) :=
  upd.foldl (fun acc p => setKey acc p.1 p.2) base

/-- `missingPackage || "unknown"` (JS `||`: the empty string is falsy). -/
def jsOrStr (a : Option String) (b : String) : String :=
  match a with
  | some s => if s == "" then b else s
  | none => b

/-- Truthiness of an optional JS string. -/
def truthyS (a : Option String) : Bool :=
  match a with
  | some s => s != ""
  | none => false

/-! ## `analyzeError` (autoFixEngine.js lines 24–230) -/

/-- autoFixEngine.js lines 41–44: `moduleMatch ? (moduleMatch[1] ||
moduleMatch[2] || moduleMatch[3] || moduleMatch[4] ||
(errorText.match(/react-scripts/i) ? "react-scripts" : null)) : null`.
The captured groups are nonempty by construction, so only the group-less
`react-scripts` alternative reaches the fallback. -/
def missingPackage (t : String) : Option String :=
  match moduleMatch t.toList with
  | some (ModMatch.grp s) =>
    if s == "" then (if cIns t "react-scripts" then some "react-scripts" else none) else some s
  | some ModMatch.reactScripts => if cIns t "react-scripts" then some "react-scripts" else none
  | none => none

/-- `split(sep)[0]`: the prefix before the first occurrence of `sep`
(the whole string when `sep` does not occur). -/
def takeUntilSub (sep : List Char) : List Char → List Char
  | [] => []
  | c :: cs => if isPrefB sep (c :: cs) then [] else c :: takeUntilSub sep cs

/-- `split(sep)[1]`: the chunk between the first and the second occurrence
of `sep` (only used after an `includes(sep)` guard, so `sep` occurs). -/
def chunk2 (sep : List Char) (t : List Char) : List Char :=
  match dropAfter1 sep t with
  | some r => takeUntilSub sep r
  | none => []

/-- The whitespace trimmed by JS `String.prototype.trim`. -/
def jsWhite (c : Char) : Bool :=
  c == ' ' || c == '\t' || c == '\n' || c == '\r' || c == '\x0b' || c == '\x0c' ||
  c == '\u00a0' || c == '\ufeff'

/-- JS `trim()`. -/
def jsTrim (s : List Char) : List Char :=
  ((s.dropWhile jsWhite).reverse.dropWhile jsWhite).reverse

/-- autoFixEngine.js lines 55–57: `missingPackage.includes("/") ?
missingPackage.split("/")[0] + "/" + missingPackage.split("/")[1].split("'")[0]
: missingPackage.split("'")[0].split('"')[0].trim()`. -/
def normalizePkg (mp : String) : String :=
  if sContains mp "/" then
    String.mk (takeUntilSub "/".toList mp.toList) ++ "/" ++
      String.mk (takeUntilSub "'".toList (chunk2 "/".toList mp.toList))
  else
    String.mk (jsTrim (takeUntilSub "\"".toList (takeUntilSub "'".toList mp.toList)))

/-- The alias table of autoFixEngine.js lines 60–67. -/
def packageMappings : List (String × String) :=
  [("react-scripts", "react-scripts"), ("react/react", "react"), ("react-dom", "react-dom"),
   ("vite", "vite"), ("next", "next"), ("webpack", "webpack")]

/-- `packageMappings[packageName] || packageName` (line 69; the table's
values are nonempty, so `||` is plain lookup-with-default). -/
def actualPackageOf (packageName : String) : String :=
  match jsGet packageMappings packageName with
  | some v => v
  | none => packageName

/-- `AutoFixEngine.isDevDependency` (lines 235–248). -/
def isDevDependency (packageName : String) : Bool :=
  ["react-scripts", "vite", "webpack", "typescript", "@types", "eslint", "jest", "babel",
   "@vitejs"].any (fun dep => sContains packageName dep)

/-- The generic fallback fix of lines 79–84. -/
def genericInstallFix : Fix :=
  { type := "install_dependencies", description := "Install missing dependencies",
    action := "npm install", autoFixable := true, package := none, script := none }

/-- Pattern 1 issue (lines 46–51). -/
def issues1 (t : String) : List Issue :=
  if pattern1 t then
    [{ type := "missing_package", severity := "high",
       message := "Missing package or module: " ++ jsOrStr (missingPackage t) "unknown",
       package := missingPackage t }]
  else []

/-- Pattern 1 fix (lines 53–85): an `install_package` fix for the
extracted (normalized, alias-mapped) name, or the generic
`install_dependencies` fix when no name was extracted. -/
def fixes1 (t : String) : List Fix :=
  if pattern1 t then
    match missingPackage t with
    | some mp =>
      if mp == "" then [genericInstallFix]
      else
        let actualPackage := actualPackageOf (normalizePkg mp)
        [{ type := "install_package",
           description := "Install missing package: " ++ actualPackage,
           action := "npm install " ++ actualPackage ++
             (if isDevDependency actualPackage then " --save-dev" else ""),
           autoFixable := true, package := some actualPackage, script := none }]
    | none => [genericInstallFix]
  else []

/-- Pattern 2 (lines 89–102). -/
def issues2 (t : String) : List Issue :=
  if pattern2 t then
    [{ type := "missing_node_modules", severity := "high",
       message := "node_modules directory not found or incomplete", package := none }]
  else []

def fixes2 (t : String) : List Fix :=
  if pattern2 t then
    [{ type := "install_dependencies", description := "Install all dependencies",
       action := "npm install", autoFixable := true, package := none, script := none }]
  else []

/-- Pattern 3 issue (lines 105–110). -/
def issues3 (t : String) : List Issue :=
  if pattern3 t then
    [{ type := "missing_build_script", severity := "high",
       message := "Build script not found in package.json", package := none }]
  else []

/-- Pattern 3's manifest inspection (lines 112–141): when `package.json`
exists and parses, a `react-scripts` dependency proposes a React build
script, else a `vite` dependency proposes a Vite one; a missing or
unparseable file adds no fix (the `catch` ignores parse errors). -/
def buildScriptFixes : PkgFile → List Fix
  | PkgFile.parsed pj =>
    -- `deps = {...dependencies, ...devDependencies}`
    if truthyKey (mergeObj pj.dependencies pj.devDependencies) "react-scripts" then
      [{ type := "add_build_script", description := "Add build script for React app",
         action := "update_package_json", autoFixable := true, package := none,
         script := some [("build", "react-scripts build")] }]
    else if truthyKey (mergeObj pj.dependencies pj.devDependencies) "vite" then
      [{ type := "add_build_script", description := "Add build script for Vite app",
         action := "update_package_json", autoFixable := true, package := none,
         script := some [("build", "vite build")] }]
    else []
  | _ => []

def fixes3 (pf : PkgFile) (t : String) : List Fix :=
  if pattern3 t then buildScriptFixes pf else []

/-- `errorText.match(/SyntaxError[^\n]+|ParseError[^\n]+/)` (line 146,
case-sensitive, no `i` flag): at the leftmost matching position, the
keyword followed by the greedy nonempty run of non-`\n` characters. -/
def synAt (t : List Char) : Option (List Char) :=
  match sPrefDrop "SyntaxError".toList t with
  | some r =>
    let g := r.takeWhile (fun c => c != '\n')
    if g.isEmpty then none else some ("SyntaxError".toList ++ g)
  | none =>
    match sPrefDrop "ParseError".toList t with
    | some r =>
      let g := r.takeWhile (fun c => c != '\n')
      if g.isEmpty then none else some ("ParseError".toList ++ g)
    | none => none

def synMatch : List Char → Option (List Char)
  | [] => none
  | c :: cs =>
    match synAt (c :: cs) with
    | some m => some m
    | none => synMatch cs

/-- Pattern 4 (lines 145–158). -/
def issues4 (t : String) : List Issue :=
  if pattern4 t then
    [{ type := "syntax_error", severity := "high",
       message :=
         match synMatch t.toList with
         | some m => String.mk m
         | none => "Syntax error in source code",
       package := none }]
  else []

def fixes4 (t : String) : List Fix :=
  if pattern4 t then
    [{ type := "fix_syntax", description := "Fix syntax errors in source code",
       action := "manual_fix", autoFixable := false, package := none, script := none }]
  else []

/-- Pattern 5 (lines 162–174). -/
def issues5 (t : String) : List Issue :=
  if pattern5 t then
    [{ type := "typescript_error", severity := "medium",
       message := "TypeScript compilation errors", package := none }]
  else []

def fixes5 (t : String) : List Fix :=
  if pattern5 t then
    [{ type := "fix_typescript", description := "Fix TypeScript errors",
       action := "manual_fix", autoFixable := false, package := none, script := none }]
  else []

/-- Pattern 6 (lines 178–190). -/
def issues6 (t : String) : List Issue :=
  if pattern6 t then
    [{ type := "permission_error", severity := "high",
       message := "Permission denied error", package := none }]
  else []

def fixes6 (t : String) : List Fix :=
  if pattern6 t then
    [{ type := "fix_permissions", description := "Fix file permissions",
       action := "manual_fix", autoFixable := false, package := none, script := none }]
  else []

/-- The command the `increase_memory` fix carries (line 204). -/
def memoryCmd : String := "NODE_OPTIONS=--max_old_space_size=4096 npm run build"

/-- Pattern 7 (lines 194–206). -/
def issues7 (t : String) : List Issue :=
  if pattern7 t then
    [{ type := "memory_error", severity := "high",
       message := "JavaScript heap out of memory", package := none }]
  else []

def fixes7 (t : String) : List Fix :=
  if pattern7 t then
    [{ type := "increase_memory", description := "Increase Node.js memory limit",
       action := memoryCmd, autoFixable := true, package := none, script := none }]
  else []

/-- Pattern 8 (lines 210–222). -/
def issues8 (t : String) : List Issue :=
  if pattern8 t then
    [{ type := "port_in_use", severity := "medium",
       message := "Port already in use", package := none }]
  else []

def fixes8 (t : String) : List Fix :=
  if pattern8 t then
    [{ type := "change_port", description := "Change port or stop conflicting process",
       action := "manual_fix", autoFixable := false, package := none, script := none }]
  else []

/-- `AutoFixEngine.analyzeError` (lines 24–230): the eight pattern blocks
push into `issues` and `suggestedFixes` in declaration order;
`canAutoFix = suggestedFixes.some(fix => fix.autoFixable)`.  `pf` is the
content of `package.json` at `this.cwd`, read by pattern 3. -/
def analyzeError (pf : PkgFile) (errorText : String) : AnalysisResult :=
  let issues := issues1 errorText ++ issues2 errorText ++ issues3 errorText ++
    issues4 errorText ++ issues5 errorText ++ issues6 errorText ++
    issues7 errorText ++ issues8 errorText
  let fixes := fixes1 errorText ++ fixes2 errorText ++ fixes3 pf errorText ++
    fixes4 errorText ++ fixes5 errorText ++ fixes6 errorText ++
    fixes7 errorText ++ fixes8 errorText
  { issues := issues, suggestedFixes := fixes,
    canAutoFix := fixes.any (fun f => f.autoFixable) }

/-! ## `AutoFixEngine.applyFix` (autoFixEngine.js lines 255–292)

External effects are parameters: `installOk action` is whether
`execSync(action)` exits zero (a non-zero exit throws, the `catch` turns
it into `false`); the `package.json` state is threaded as a `PkgFile`. -/

/-- `applyFix`: returns the success flag and the new `package.json` state.
* install fixes run the installer and leave the manifest alone;
* `add_build_script` with a parsed manifest merges `fix.script` into
  `scripts` (creating the section if absent) and returns `true`; with a
  missing file it falls through every branch to `return false`; with an
  unparseable file `JSON.parse` throws and the `catch` returns `false`;
* `increase_memory` does nothing and reports success;
* anything else returns `false`. -/
def applyFix (installOk : String → Bool) (pf : PkgFile) (f : Fix) : Bool × PkgFile :=
  if f.type == "install_package" || f.type == "install_dependencies" then
    (installOk f.action, pf)
  else if f.type == "add_build_script" then
    match pf with
    | PkgFile.parsed pj =>
      (true, PkgFile.parsed
        { pj with scripts := some (mergeObj (pj.scripts.getD []) (f.script.getD [])) })
    | _ => (false, pf)
  else if f.type == "increase_memory" then (true, pf)
  else (false, pf)

/-- The loop of deploy.js lines 256–259: apply each fix in order, counting
successes (`fixesApplied`), threading the manifest state. -/
def applyFixList (installOk : String → Bool) : PkgFile → List Fix → Nat × PkgFile
  | pf, [] => (0, pf)
  | pf, f :: fs =>
    let r := applyFix installOk pf f
    let rest := applyFixList installOk r.2 fs
    ((if r.1 then 1 else 0) + rest.1, rest.2)

/-! ## `detectProjectType` (deploy.js lines 27–136) -/

/-- The value `detectProjectType` returns (spinner text aside). -/
structure ProjectInfo where
  type : String
  buildCmd : Option String
  deployDir : String
  description : String
deriving DecidableEq

/-- `detectProjectType`: `pf` is `package.json` at the working directory,
`hasIndexHtml` whether `index.html` exists, `existingDirs` the output
directories that exist (for the generic-Node `deployDir` probe). -/
def detectProjectType (pf : PkgFile) (hasIndexHtml : Bool) (existingDirs : List String) :
    ProjectInfo :=
  match pf with
  | PkgFile.parsed pj =>
    let deps := mergeObj pj.dependencies pj.devDependencies
    if truthyKey deps "react-scripts" then
      { type := "react", buildCmd := some "npm run build", deployDir := "build",
        description := "React (Create React App) project" }
    else if truthyKey deps "next" then
      let hasExportScript :=
        match pj.scripts with
        | some s => truthyKey s "export"
        | none => false
      { type := "nextjs",
        buildCmd := some (if hasExportScript then "npm run build && npm run export"
          else "npm run build"),
        deployDir := "out", description := "Next.js project" }
    else if truthyKey deps "vite" then
      { type := "vite", buildCmd := some "npm run build", deployDir := "dist",
        description := "Vite project" }
    else if truthyKey deps "vue" || truthyKey deps "@vue/cli-service" then
      { type := "vue", buildCmd := some "npm run build", deployDir := "dist",
        description := "Vue project" }
    else if truthyKey deps "@angular/core" then
      { type := "angular", buildCmd := some "npm run build", deployDir := "dist",
        description := "Angular project" }
    else if (match pj.scripts with | some s => truthyKey s "build" | none => false) then
      { type := "node", buildCmd := some "npm run build",
        deployDir := ((["dist", "build", "out", "public"].find?
          (fun d => existingDirs.contains d)).getD "dist"),
        description := "Node.js project with build script" }
    else
      -- package.json exists, so the static-HTML branch's guard fails
      { type := "static", buildCmd := none, deployDir := ".", description := "Static project" }
  | PkgFile.invalid =>
    -- the file exists (parse failure only skips the typed branches)
    { type := "static", buildCmd := none, deployDir := ".", description := "Static project" }
  | PkgFile.missing =>
    if hasIndexHtml then
      { type := "static", buildCmd := none, deployDir := ".",
        description := "Static HTML project" }
    else
      { type := "static", buildCmd := none, deployDir := ".", description := "Static project" }

/-! ## `buildWithAutoFix` (deploy.js lines 155–314)

The build collaborator is `build inv cmd`: the result of the `inv`-th
build invocation of the session when run with command `cmd` — `none` for
a zero exit, `some errText` for a failure with captured error text
(`stderr || stdout || message`).  `userAccepts` is the result of the
single auto-fix confirmation prompt; `installOk` the installer
collaborator; `pf` the `package.json` state. -/

/-- Terminal state of a build session. -/
inductive Outcome
  | Succeeded
  | Failed
deriving DecidableEq

/-- Observable trace of one session: how many times the build collaborator
ran, with which commands, how many `applyFix` invocations happened, and
the terminal outcome. -/
structure OrchTrace where
  builds : Nat
  cmds : List String
  fixCalls : Nat
  outcome : Outcome
deriving DecidableEq

/-- The `while (attempt <= maxRetries && !buildSuccess)` loop of
`buildWithAutoFix` (`maxRetries = 2`).  `attempt` is the value at loop
entry; a failed build increments it.  On the first failure (`attempt ===
1` after increment) the engine analyzes the error; with user consent it
applies every auto-fixable fix, substitutes the `increase_memory` command
when that fix is present, and iterates; every other failure path
returns.  A second failure (`attempt !== 1`) always returns.  `builds`,
`cmds` and `fixCalls` accumulate the observable trace. -/
def orchLoop (build : Nat → String → Option String) (userAccepts : Bool)
    (installOk : String → Bool) (pf : PkgFile) (attempt : Nat) (buildCmd : String)
    (builds : Nat) (cmds : List String) (fixCalls : Nat) : OrchTrace :=
  if _h : attempt ≤ 2 then
    match build builds buildCmd with
    | none => ⟨builds + 1, cmds ++ [buildCmd], fixCalls, Outcome.Succeeded⟩
    | some errText =>
      if attempt + 1 = 1 then
        -- `const analysis = autoFix.analyzeError(buildErr, errorOutput)`
        if (analyzeError pf errText).issues.length > 0 then
          if (analyzeError pf errText).suggestedFixes.length > 0 then
            -- `autoFixableFixes = analysis.suggestedFixes.filter(f => f.autoFixable)`
            if ((analyzeError pf errText).suggestedFixes.filter
                (fun f => f.autoFixable)).length > 0 then
              if userAccepts then
                -- `fixesApplied`: successes of `applyFix` over the auto-fixable fixes
                if (applyFixList installOk pf ((analyzeError pf errText).suggestedFixes.filter
                    (fun f => f.autoFixable))).1 > 0 then
                  -- deploy.js 266–269: the increase_memory fix replaces the command
                  orchLoop build userAccepts installOk
                    (applyFixList installOk pf ((analyzeError pf errText).suggestedFixes.filter
                      (fun f => f.autoFixable))).2
                    (attempt + 1)
                    (match ((analyzeError pf errText).suggestedFixes.filter
                        (fun f => f.autoFixable)).find? (fun f => f.type == "increase_memory") with
                     | some memoryFix => memoryFix.action
                     | none => buildCmd)
                    (builds + 1) (cmds ++ [buildCmd])
                    (fixCalls + ((analyzeError pf errText).suggestedFixes.filter
                      (fun f => f.autoFixable)).length)
                else
                  -- "Failed to apply fixes": no return, the while loop iterates
                  orchLoop build userAccepts installOk
                    (applyFixList installOk pf ((analyzeError pf errText).suggestedFixes.filter
                      (fun f => f.autoFixable))).2
                    (attempt + 1) buildCmd (builds + 1) (cmds ++ [buildCmd])
                    (fixCalls + ((analyzeError pf errText).suggestedFixes.filter
                      (fun f => f.autoFixable)).length)
              else -- user declined: return
                ⟨builds + 1, cmds ++ [buildCmd], fixCalls, Outcome.Failed⟩
            else -- only manual fixes: return
              ⟨builds + 1, cmds ++ [buildCmd], fixCalls, Outcome.Failed⟩
          else -- no suggested fixes: return
            ⟨builds + 1, cmds ++ [buildCmd], fixCalls, Outcome.Failed⟩
        else -- no detected issues: return
          ⟨builds + 1, cmds ++ [buildCmd], fixCalls, Outcome.Failed⟩
      else -- second attempt also failed: return
        ⟨builds + 1, cmds ++ [buildCmd], fixCalls, Outcome.Failed⟩
  else -- loop guard exhausted without success
    ⟨builds, cmds, fixCalls, Outcome.Failed⟩
termination_by 3 - attempt
decreasing_by all_goals omega

/-- One build session: `buildWithAutoFix(spinner, projectInfo, config)`
starting from `attempt = 0` with the detected build command. -/
def buildWithAutoFix (build : Nat → String → Option String) (userAccepts : Bool)
    (installOk : String → Bool) (pf : PkgFile) (buildCmd : String) : OrchTrace :=
  orchLoop build userAccepts installOk pf 0 buildCmd 0 [] 0

/-- The eight rules in declaration order: issue kind and trigger (the
spec's externally observable emission-order contract). -/
def ruleOrder : List (String × (String → Bool)) :=
  [("missing_package", pattern1), ("missing_node_modules", pattern2),
   ("missing_build_script", pattern3), ("syntax_error", pattern4),
   ("typescript_error", pattern5), ("permission_error", pattern6),
   ("memory_error", pattern7), ("port_in_use", pattern8)]

/-- The missing-package trigger as the spec's sentence lists it: "cannot
find module", "module not found", "cannot resolve", or a
react-scripts-not-found shell message — written against the matching
primitives only, independently of `pattern1`, to compare the spec's
claimed trigger set with the code's. -/
def specMissingPackageTrigger (t : String) : Bool :=
  cIns t "cannot find module" || cIns t "module not found" || cIns t "cannot resolve" ||
  ciLine2 t "react-scripts" "not found" || cIns t "react-scripts: command not found" ||
  ciLine3 t "sh:" "react-scripts:" "not found"

/-- A concrete `add_build_script` fix (the React one the engine emits),
used as a witness input. -/
def sampleBuildScriptFix : Fix :=
  { type := "add_build_script", description := "Add build script for React app",
    action := "update_package_json", autoFixable := true, package := none,
    script := some [("build", "react-scripts build")] }

/-- A concrete parsed manifest used as a witness input. -/
def sampleManifest : Manifest :=
  { dependencies := [("react-scripts", "5.0.0")], devDependencies := [],
    scripts := some [("test", "echo")] }

/-! ## Helper lemmas -/

/-- `canAutoFix` is, by construction, `suggestedFixes.some(f => f.autoFixable)`. -/
theorem analyzeError_canAutoFix (pf : PkgFile) (t : String) :
    (analyzeError pf t).canAutoFix =
      (analyzeError pf t).suggestedFixes.any (fun f => f.autoFixable) := rfl

/-- An iteration entered with `attempt = 1` runs the build exactly once
more: on failure `attempt` becomes `2 ≠ 1` and the session returns. -/
theorem orchLoop_one_builds (build : Nat → String → Option String) (ua : Bool)
    (inst : String → Bool) (pf : PkgFile) (cmd : String) (builds : Nat)
    (cmds : List String) (fc : Nat) :
    (orchLoop build ua inst pf 1 cmd builds cmds fc).builds = builds + 1 := by
  unfold orchLoop
  cases build builds cmd <;> simp

/-- An iteration entered with `attempt = 1` records exactly one more
command, the one it was entered with. -/
theorem orchLoop_one_cmds (build : Nat → String → Option String) (ua : Bool)
    (inst : String → Bool) (pf : PkgFile) (cmd : String) (builds : Nat)
    (cmds : List String) (fc : Nat) :
    (orchLoop build ua inst pf 1 cmd builds cmds fc).cmds = cmds ++ [cmd] := by
  unfold orchLoop
  cases build builds cmd <;> simp

/-- If the build of the `attempt = 1` iteration fails, the session ends
`Failed`. -/
theorem orchLoop_one_failed (build : Nat → String → Option String) (ua : Bool)
    (inst : String → Bool) (pf : PkgFile) (cmd : String) (builds : Nat)
    (cmds : List String) (fc : Nat) (hb : build builds cmd ≠ none) :
    (orchLoop build ua inst pf 1 cmd builds cmds fc).outcome = Outcome.Failed := by
  unfold orchLoop
  cases h : build builds cmd
  · exact absurd h hb
  · simp

/-- Pattern 1 contributes exactly one issue, of kind `missing_package`. -/
theorem issues1_types (t : String) :
    (issues1 t).map (fun i => i.type) = if pattern1 t then ["missing_package"] else [] := by
  unfold issues1; split <;> rfl

theorem issues2_types (t : String) :
    (issues2 t).map (fun i => i.type) = if pattern2 t then ["missing_node_modules"] else [] := by
  unfold issues2; split <;> rfl

theorem issues3_types (t : String) :
    (issues3 t).map (fun i => i.type) = if pattern3 t then ["missing_build_script"] else [] := by
  unfold issues3; split <;> rfl

theorem issues4_types (t : String) :
    (issues4 t).map (fun i => i.type) = if pattern4 t then ["syntax_error"] else [] := by
  unfold issues4; split <;> rfl

theorem issues5_types (t : String) :
    (issues5 t).map (fun i => i.type) = if pattern5 t then ["typescript_error"] else [] := by
  unfold issues5; split <;> rfl

theorem issues6_types (t : String) :
    (issues6 t).map (fun i => i.type) = if pattern6 t then ["permission_error"] else [] := by
  unfold issues6; split <;> rfl

theorem issues7_types (t : String) :
    (issues7 t).map (fun i => i.type) = if pattern7 t then ["memory_error"] else [] := by
  unfold issues7; split <;> rfl

theorem issues8_types (t : String) :
    (issues8 t).map (fun i => i.type) = if pattern8 t then ["port_in_use"] else [] := by
  unfold issues8; split <;> rfl

/-- The issue kinds of an analysis are the rule kinds, in declaration
order, filtered by their triggers. -/
theorem analyzeError_issue_types (pf : PkgFile) (t : String) :
    (analyzeError pf t).issues.map (fun i => i.type) =
      (ruleOrder.filter (fun r => r.2 t)).map (fun r => r.1) := by
  simp only [analyzeError, List.map_append]
  rw [issues1_types, issues2_types, issues3_types, issues4_types, issues5_types,
    issues6_types, issues7_types, issues8_types]
  by_cases p1 : pattern1 t <;> by_cases p2 : pattern2 t <;> by_cases p3 : pattern3 t <;>
    by_cases p4 : pattern4 t <;> by_cases p5 : pattern5 t <;> by_cases p6 : pattern6 t <;>
    by_cases p7 : pattern7 t <;> by_cases p8 : pattern8 t <;>
    simp [ruleOrder, p1, p2, p3, p4, p5, p6, p7, p8]

theorem fixes1_types (t : String) :
    (fixes1 t).map (fun f => f.type) =
      if pattern1 t then
        [if truthyS (missingPackage t) then "install_package" else "install_dependencies"]
      else [] := by
  unfold fixes1 truthyS
  split
  · cases h : missingPackage t with
    | none => rfl
    | some mp =>
      by_cases hmp : mp = ""
      · simp [hmp, genericInstallFix]
      · simp [hmp]
  · rfl

theorem fixes2_types (t : String) :
    (fixes2 t).map (fun f => f.type) = if pattern2 t then ["install_dependencies"] else [] := by
  unfold fixes2; split <;> rfl

theorem fixes3_types (pf : PkgFile) (t : String) :
    (fixes3 pf t).map (fun f => f.type) =
      if pattern3 t then (buildScriptFixes pf).map (fun f => f.type) else [] := by
  unfold fixes3; split <;> rfl

theorem fixes4_types (t : String) :
    (fixes4 t).map (fun f => f.type) = if pattern4 t then ["fix_syntax"] else [] := by
  unfold fixes4; split <;> rfl

theorem fixes5_types (t : String) :
    (fixes5 t).map (fun f => f.type) = if pattern5 t then ["fix_typescript"] else [] := by
  unfold fixes5; split <;> rfl

theorem fixes6_types (t : String) :
    (fixes6 t).map (fun f => f.type) = if pattern6 t then ["fix_permissions"] else [] := by
  unfold fixes6; split <;> rfl

theorem fixes7_types (t : String) :
    (fixes7 t).map (fun f => f.type) = if pattern7 t then ["increase_memory"] else [] := by
  unfold fixes7; split <;> rfl

theorem fixes8_types (t : String) :
    (fixes8 t).map (fun f => f.type) = if pattern8 t then ["change_port"] else [] := by
  unfold fixes8; split <;> rfl

/-- The suggested-fix kinds of an analysis, rule by rule in declaration
order. -/
theorem analyzeError_fix_types (pf : PkgFile) (t : String) :
    (analyzeError pf t).suggestedFixes.map (fun f => f.type) =
      (if pattern1 t then
        [if truthyS (missingPackage t) then "install_package" else "install_dependencies"]
       else []) ++
      (if pattern2 t then ["install_dependencies"] else []) ++
      (if pattern3 t then (buildScriptFixes pf).map (fun f => f.type) else []) ++
      (if pattern4 t then ["fix_syntax"] else []) ++
      (if pattern5 t then ["fix_typescript"] else []) ++
      (if pattern6 t then ["fix_permissions"] else []) ++
      (if pattern7 t then ["increase_memory"] else []) ++
      (if pattern8 t then ["change_port"] else []) := by
  simp only [analyzeError, List.map_append]
  rw [fixes1_types, fixes2_types, fixes3_types, fixes4_types, fixes5_types, fixes6_types,
    fixes7_types, fixes8_types]

/-- Only pattern 1 emits a `missing_package` issue, and always does. -/
theorem issues1_any_mp (t : String) :
    (issues1 t).any (fun i => i.type == "missing_package") = pattern1 t := by
  unfold issues1; split <;> simp_all

theorem issues2_any_mp (t : String) :
    (issues2 t).any (fun i => i.type == "missing_package") = false := by
  unfold issues2; split <;> simp

theorem issues3_any_mp (t : String) :
    (issues3 t).any (fun i => i.type == "missing_package") = false := by
  unfold issues3; split <;> simp

theorem issues4_any_mp (t : String) :
    (issues4 t).any (fun i => i.type == "missing_package") = false := by
  unfold issues4; split <;> simp

theorem issues5_any_mp (t : String) :
    (issues5 t).any (fun i => i.type == "missing_package") = false := by
  unfold issues5; split <;> simp

theorem issues6_any_mp (t : String) :
    (issues6 t).any (fun i => i.type == "missing_package") = false := by
  unfold issues6; split <;> simp

theorem issues7_any_mp (t : String) :
    (issues7 t).any (fun i => i.type == "missing_package") = false := by
  unfold issues7; split <;> simp

theorem issues8_any_mp (t : String) :
    (issues8 t).any (fun i => i.type == "missing_package") = false := by
  unfold issues8; split <;> simp


/-- Prefix order is transitive. -/
theorem isPrefB_trans : ∀ (p q r : List Char), isPrefB p q = true → isPrefB q r = true →
    isPrefB p r = true := by
  intro p
  induction p with
  | nil => intro q r _ _; rfl
  | cons a ps ih =>
    intro q r hq hr
    cases q with
    | nil => simp [isPrefB] at hq
    | cons b qs =>
      cases r with
      | nil => simp [isPrefB] at hr
      | cons c rs =>
        simp only [isPrefB, Bool.and_eq_true, beq_iff_eq] at hq hr ⊢
        exact ⟨hq.1.trans hr.1, ih qs rs hq.2 hr.2⟩

/-- A text containing `q` contains every prefix of `q`. -/
theorem hasSub_of_prefB (p q : List Char) (hpq : isPrefB p q = true) :
    ∀ t, hasSub q t = true → hasSub p t = true := by
  intro t
  induction t with
  | nil => intro h; exact isPrefB_trans p q [] hpq h
  | cons c cs ih =>
    intro h
    simp only [hasSub, Bool.or_eq_true] at h ⊢
    rcases h with h | h
    · exact Or.inl (isPrefB_trans p q (c :: cs) hpq h)
    · exact Or.inr (ih h)

/-- Lower-casing preserves the prefix relation. -/
theorem isPrefB_lower (p t : List Char) (h : isPrefB p t = true) :
    isPrefB (lc p) (lc t) = true := by
  induction p generalizing t with
  | nil => rfl
  | cons a ps ih =>
    cases t with
    | nil => simp [isPrefB] at h
    | cons c cs =>
      simp only [isPrefB, Bool.and_eq_true, beq_iff_eq] at h
      simp only [lc, List.map_cons, isPrefB, Bool.and_eq_true, beq_iff_eq]
      exact ⟨congrArg Char.toLower h.1, ih cs h.2⟩

/-- Lower-casing preserves the substring relation. -/
theorem hasSub_lower (p : List Char) : ∀ t, hasSub p t = true → hasSub (lc p) (lc t) = true := by
  intro t
  induction t with
  | nil =>
    intro h
    cases p with
    | nil => rfl
    | cons a ps => simp [hasSub, isPrefB] at h
  | cons c cs ih =>
    intro h
    simp only [hasSub, Bool.or_eq_true] at h
    rcases h with h | h
    · have := isPrefB_lower p (c :: cs) h
      simp only [lc, List.map_cons] at this ⊢
      simp [hasSub, this]
    · have := ih h
      simp only [lc, List.map_cons, hasSub, Bool.or_eq_true]
      exact Or.inr this

/-- Text containing `Cannot find module 'left-pad'` contains
`cannot find module` case-insensitively, so pattern 1 fires. -/
theorem pattern1_of_left_pad (t : String)
    (h : sContains t "Cannot find module 'left-pad'" = true) : pattern1 t = true := by
  have h2 : hasSub (lc "Cannot find module 'left-pad'".toList) (lc t.toList) = true :=
    hasSub_lower _ _ h
  have h4 : cIns t "cannot find module" = true := by
    unfold cIns
    exact hasSub_of_prefB _ _ (by decide) _ h2
  unfold pattern1
  rw [h4]
  rfl


/-- Every fix the manifest inspection of pattern 3 proposes is an
`add_build_script` fix. -/
theorem buildScriptFixes_types (pf : PkgFile) :
    ∀ g ∈ buildScriptFixes pf, g.type = "add_build_script" := by
  intro g hg
  rcases pf with _ | _ | pj <;> simp only [buildScriptFixes] at hg
  · cases hg
  · cases hg
  · split_ifs at hg <;> simp at hg <;> simp [hg]

/-- An `increase_memory` fix in an analysis comes from pattern 7: it is
auto-fixable and its action is the fixed memory-limit command. -/
theorem fix_increase_memory_mem (pf : PkgFile) (t : String) (f : Fix)
    (hmem : f ∈ (analyzeError pf t).suggestedFixes) (htype : f.type = "increase_memory") :
    f.action = memoryCmd ∧ pattern7 t = true ∧ f.autoFixable = true := by
  simp only [analyzeError, List.mem_append, or_assoc] at hmem
  rcases hmem with h | h | h | h | h | h | h | h
  · have hm := List.mem_map_of_mem (fun g => g.type) h
    rw [fixes1_types] at hm
    split at hm
    · simp at hm
      rw [htype] at hm
      split at hm <;> exact absurd hm (by decide)
    · simp at hm
  · have hm := List.mem_map_of_mem (fun g => g.type) h
    rw [fixes2_types] at hm
    split at hm <;> simp at hm
    rw [htype] at hm
    exact absurd hm (by decide)
  · have hm := List.mem_map_of_mem (fun g => g.type) h
    rw [fixes3_types] at hm
    split at hm
    · rcases List.mem_map.mp hm with ⟨g, hg, hgt⟩
      have hft : f.type = "add_build_script" := by
        have := buildScriptFixes_types pf g hg
        simpa [this] using hgt.symm
      rw [htype] at hft
      exact absurd hft (by decide)
    · simp at hm
  · have hm := List.mem_map_of_mem (fun g => g.type) h
    rw [fixes4_types] at hm
    split at hm <;> simp at hm
    rw [htype] at hm
    exact absurd hm (by decide)
  · have hm := List.mem_map_of_mem (fun g => g.type) h
    rw [fixes5_types] at hm
    split at hm <;> simp at hm
    rw [htype] at hm
    exact absurd hm (by decide)
  · have hm := List.mem_map_of_mem (fun g => g.type) h
    rw [fixes6_types] at hm
    split at hm <;> simp at hm
    rw [htype] at hm
    exact absurd hm (by decide)
  · unfold fixes7 at h
    split at h
    next hp =>
      simp at h
      subst h
      exact ⟨rfl, hp, rfl⟩
    next => simp at h
  · have hm := List.mem_map_of_mem (fun g => g.type) h
    rw [fixes8_types] at hm
    split at hm <;> simp at hm
    rw [htype] at hm
    exact absurd hm (by decide)

/-- When pattern 7 fires, the issue list is nonempty. -/
theorem issues_pos_of_pattern7 (pf : PkgFile) (t : String) (hp : pattern7 t = true) :
    (analyzeError pf t).issues.length > 0 := by
  simp only [analyzeError, List.length_append]
  have : (issues7 t).length = 1 := by unfold issues7; rw [hp]; rfl
  omega

/-- `applyFix` always reports success on an `increase_memory` fix
(autoFixEngine.js lines 282–285). -/
theorem applyFix_increase_memory (inst : String → Bool) (pf : PkgFile) (f : Fix)
    (htype : f.type = "increase_memory") : (applyFix inst pf f).1 = true := by
  unfold applyFix
  rw [htype]
  simp

/-- A fix loop over a list containing an `increase_memory` fix applies at
least one fix successfully. -/
theorem applyFixList_pos (inst : String → Bool) :
    ∀ (pf : PkgFile) (l : List Fix), (∃ f ∈ l, f.type = "increase_memory") →
      0 < (applyFixList inst pf l).1 := by
  intro pf l
  induction l generalizing pf with
  | nil => rintro ⟨f, hf, _⟩; cases hf
  | cons a as ih =>
    rintro ⟨f, hf, ht⟩
    rcases List.mem_cons.mp hf with rfl | hmemb
    · have h1 := applyFix_increase_memory inst pf f ht
      simp only [applyFixList, h1]
      simp
    · have h2 := ih (applyFix inst pf a).2 ⟨f, hmemb, ht⟩
      simp only [applyFixList]
      split <;> omega


/-- Every non-null build command `detectProjectType` can produce is
`npm run build` or `npm run build && npm run export`
(deploy.js lines 27–136). -/
theorem detect_buildCmd (pf : PkgFile) (hasIdx : Bool) (dirs : List String) (c : String)
    (h : (detectProjectType pf hasIdx dirs).buildCmd = some c) :
    c = "npm run build" ∨ c = "npm run build && npm run export" := by
  rcases pf with _ | _ | pj <;> simp only [detectProjectType] at h
  · split_ifs at h
  · exact absurd h (by simp)
  · split_ifs at h <;> simp at h <;> subst h <;> simp

/-! ## The claims -/

/-- C1: in every build session driven by `buildWithAutoFix` the external
build command is invoked at most twice, and when the first build and the
retry both fail the session terminates `Failed` with no third
invocation — for every build collaborator, user answer, installer
behaviour and manifest state. -/
theorem buildWithAutoFix_retry_bound (build : Nat → String → Option String) (ua : Bool)
    (inst : String → Bool) (pf : PkgFile) (cmd : String) :
    (buildWithAutoFix build ua inst pf cmd).builds ≤ 2 ∧
      ((∀ n c, build n c ≠ none) →
        (buildWithAutoFix build ua inst pf cmd).outcome = Outcome.Failed ∧
          (buildWithAutoFix build ua inst pf cmd).builds ≤ 2) := by
  have hb2 : (buildWithAutoFix build ua inst pf cmd).builds ≤ 2 := by
    unfold buildWithAutoFix orchLoop
    cases h0 : build 0 cmd
    · simp
    · simp only [List.nil_append]
      split_ifs <;> simp only [Nat.zero_add] <;>
        first
          | omega
          | (rw [orchLoop_one_builds]; try omega)
  refine ⟨hb2, fun hall => ⟨?_, hb2⟩⟩
  unfold buildWithAutoFix orchLoop
  cases h0 : build 0 cmd
  · exact absurd h0 (hall 0 cmd)
  · simp only [List.nil_append]
    split_ifs <;>
      first
        | rfl
        | (simp only [Nat.zero_add]; exact orchLoop_one_failed _ _ _ _ _ _ _ _ (hall 1 _))

/-- C1, witnessed on a session whose build always fails: two invocations,
`Failed`. -/
theorem buildWithAutoFix_retry_bound_witness :
    (buildWithAutoFix (fun _ _ => some "FATAL ERROR: JavaScript heap out of memory") true
        (fun _ => true) PkgFile.missing "npm run build").builds ≤ 2 ∧
      (buildWithAutoFix (fun _ _ => some "FATAL ERROR: JavaScript heap out of memory") true
        (fun _ => true) PkgFile.missing "npm run build").outcome = Outcome.Failed :=
  ⟨(buildWithAutoFix_retry_bound _ _ _ _ _).1,
   ((buildWithAutoFix_retry_bound (fun _ _ => some "FATAL ERROR: JavaScript heap out of memory")
      true (fun _ => true) PkgFile.missing "npm run build").2
      (fun _ _ h => Option.noConfusion h)).1⟩

/-- C3: when the analysis of the first failure's error text offers no
auto-fixable fix (`canAutoFix = false`), the session terminates `Failed`
after exactly one build invocation, with `applyFix` never invoked. -/
theorem manualOnly_terminates_after_one_build (build : Nat → String → Option String)
    (ua : Bool) (inst : String → Bool) (pf : PkgFile) (cmd errText : String)
    (hb : build 0 cmd = some errText)
    (hca : (analyzeError pf errText).canAutoFix = false) :
    buildWithAutoFix build ua inst pf cmd = ⟨1, [cmd], 0, Outcome.Failed⟩ := by
  have hany : (analyzeError pf errText).suggestedFixes.any (fun f => f.autoFixable) = false :=
    hca
  have hfil : (analyzeError pf errText).suggestedFixes.filter (fun f => f.autoFixable) = [] :=
    List.filter_eq_nil_iff.mpr (List.any_eq_false.mp hany)
  unfold buildWithAutoFix orchLoop
  simp only [hb, List.nil_append]
  split_ifs <;>
    first
      | rfl
      | (simp only [hfil, List.length_nil] at *; omega)

/-- C3, witnessed on error text that triggers only the syntax-error rule. -/
theorem manualOnly_terminates_after_one_build_witness :
    (fun (_ : Nat) (_ : String) => some "SyntaxError: Unexpected token <") 0 "npm run build" =
        some "SyntaxError: Unexpected token <" ∧
      (analyzeError PkgFile.missing "SyntaxError: Unexpected token <").canAutoFix = false ∧
      buildWithAutoFix (fun _ _ => some "SyntaxError: Unexpected token <") true (fun _ => true)
          PkgFile.missing "npm run build" = ⟨1, ["npm run build"], 0, Outcome.Failed⟩ :=
  ⟨rfl, by decide,
   manualOnly_terminates_after_one_build _ true (fun _ => true) PkgFile.missing _ _ rfl
     (by decide)⟩


/-- C4, as claimed, is falsified by the text `missing package`: the code's
extra `/missing.*package/i` disjunct emits a `missing_package` issue on
text matching none of the four spec-listed triggers. -/
theorem missing_package_trigger_counterexample :
    (analyzeError PkgFile.missing "missing package").issues.any
        (fun i => i.type == "missing_package") = true ∧
      specMissingPackageTrigger "missing package" = false := by decide

/-- C4 (amended): `analyzeError` emits an issue of kind `missing_package`
iff the error text matches, case-insensitively, one of "cannot find
module", "module not found", "cannot resolve", a react-scripts-not-found
shell message, or "missing" followed by "package" on one line. -/
theorem missing_package_trigger_iff (pf : PkgFile) (t : String) :
    (analyzeError pf t).issues.any (fun i => i.type == "missing_package") =
      (specMissingPackageTrigger t || ciLine2 t "missing" "package") := by
  simp only [analyzeError, List.any_append]
  rw [issues1_any_mp, issues2_any_mp, issues3_any_mp, issues4_any_mp, issues5_any_mp,
    issues6_any_mp, issues7_any_mp, issues8_any_mp]
  simp only [Bool.or_false]
  unfold pattern1 specMissingPackageTrigger
  cases cIns t "cannot find module" <;> cases cIns t "module not found" <;>
    cases cIns t "cannot resolve" <;> cases ciLine2 t "missing" "package" <;>
    cases ciLine2 t "react-scripts" "not found" <;>
    cases cIns t "react-scripts: command not found" <;>
    cases ciLine3 t "sh:" "react-scripts:" "not found" <;> rfl

/-- C6: issues and suggested fixes appear in the fixed rule-declaration
order — the issue kinds are the rule kinds filtered by their triggers,
and the fix kinds are the per-rule contributions concatenated in rule
order, independent of severities or of where the triggering substrings
occur in the text. -/
theorem analyzeError_rule_order (pf : PkgFile) (t : String) :
    (analyzeError pf t).issues.map (fun i => i.type) =
        (ruleOrder.filter (fun r => r.2 t)).map (fun r => r.1) ∧
      (analyzeError pf t).suggestedFixes.map (fun f => f.type) =
        (if pattern1 t then
          [if truthyS (missingPackage t) then "install_package" else "install_dependencies"]
         else []) ++
        (if pattern2 t then ["install_dependencies"] else []) ++
        (if pattern3 t then (buildScriptFixes pf).map (fun f => f.type) else []) ++
        (if pattern4 t then ["fix_syntax"] else []) ++
        (if pattern5 t then ["fix_typescript"] else []) ++
        (if pattern6 t then ["fix_permissions"] else []) ++
        (if pattern7 t then ["increase_memory"] else []) ++
        (if pattern8 t then ["change_port"] else []) :=
  ⟨analyzeError_issue_types pf t, analyzeError_fix_types pf t⟩

/-- C8: the classification is a pure function of the error text and the
manifest contents — two analyses of the same text against the same
manifest state give identical ordered issue lists, identical ordered fix
lists and the same `canAutoFix` (no randomness, no clock). -/
theorem analyzeError_deterministic (pf : PkgFile) (t : String) (r1 r2 : AnalysisResult)
    (h1 : r1 = analyzeError pf t) (h2 : r2 = analyzeError pf t) :
    r1.issues = r2.issues ∧ r1.suggestedFixes = r2.suggestedFixes ∧
      r1.canAutoFix = r2.canAutoFix := by
  subst h1; subst h2; exact ⟨rfl, rfl, rfl⟩

/-- C8, witnessed on two runs over a concrete text. -/
theorem analyzeError_deterministic_witness :
    analyzeError PkgFile.missing "Cannot find module 'x'" =
        analyzeError PkgFile.missing "Cannot find module 'x'" ∧
      (analyzeError PkgFile.missing "Cannot find module 'x'").issues =
          (analyzeError PkgFile.missing "Cannot find module 'x'").issues ∧
        (analyzeError PkgFile.missing "Cannot find module 'x'").suggestedFixes =
            (analyzeError PkgFile.missing "Cannot find module 'x'").suggestedFixes ∧
          (analyzeError PkgFile.missing "Cannot find module 'x'").canAutoFix =
            (analyzeError PkgFile.missing "Cannot find module 'x'").canAutoFix :=
  ⟨rfl, analyzeError_deterministic PkgFile.missing "Cannot find module 'x'" _ _ rfl rfl⟩

/-- C9: text on which no trigger fires analyzes — without throwing, the
classifier is total — to an empty issue list, an empty fix list, and
`canAutoFix = false`, whatever the manifest state. -/
theorem no_match_empty (pf : PkgFile) (t : String) (h1 : pattern1 t = false)
    (h2 : pattern2 t = false) (h3 : pattern3 t = false) (h4 : pattern4 t = false)
    (h5 : pattern5 t = false) (h6 : pattern6 t = false) (h7 : pattern7 t = false)
    (h8 : pattern8 t = false) :
    analyzeError pf t = { issues := [], suggestedFixes := [], canAutoFix := false } := by
  unfold analyzeError issues1 issues2 issues3 issues4 issues5 issues6 issues7 issues8
    fixes1 fixes2 fixes3 fixes4 fixes5 fixes6 fixes7 fixes8
  simp [h1, h2, h3, h4, h5, h6, h7, h8]

/-- C9, witnessed on "hello world". -/
theorem no_match_empty_witness :
    pattern1 "hello world" = false ∧ pattern2 "hello world" = false ∧
      pattern3 "hello world" = false ∧ pattern4 "hello world" = false ∧
      pattern5 "hello world" = false ∧ pattern6 "hello world" = false ∧
      pattern7 "hello world" = false ∧ pattern8 "hello world" = false ∧
      analyzeError PkgFile.missing "hello world" =
        { issues := [], suggestedFixes := [], canAutoFix := false } :=
  ⟨by decide, by decide, by decide, by decide, by decide, by decide, by decide, by decide,
   no_match_empty PkgFile.missing "hello world" (by decide) (by decide) (by decide) (by decide)
     (by decide) (by decide) (by decide) (by decide)⟩


/-- C2, as claimed, is falsified at two texts containing
`Cannot find module 'left-pad'`: one that also triggers the
missing-node_modules rule (two issues, not one), and one whose earliest
extraction match captures a different module name (package ≠ left-pad). -/
theorem left_pad_counterexample :
    (sContains "ENOENT node_modules: Cannot find module 'left-pad'"
          "Cannot find module 'left-pad'" = true ∧
        (analyzeError PkgFile.missing
            "ENOENT node_modules: Cannot find module 'left-pad'").issues.length = 2) ∧
      (sContains "Cannot find module 'x', Cannot find module 'left-pad'"
            "Cannot find module 'left-pad'" = true ∧
          (analyzeError PkgFile.missing
              "Cannot find module 'x', Cannot find module 'left-pad'").issues.length = 1 ∧
        (analyzeError PkgFile.missing
            "Cannot find module 'x', Cannot find module 'left-pad'").issues.any
          (fun i => i.package == some "left-pad") = false) := by
  decide

/-- C2 (amended): for error text containing `Cannot find module
'left-pad'`, when no other rule is triggered and the earliest extraction
match captures `left-pad`, the result is exactly one issue of kind
`missing_package` with package `left-pad` and exactly one suggested fix,
auto-fixable, whose action contains `left-pad`. -/
theorem left_pad_single_issue (pf : PkgFile) (t : String)
    (hsub : sContains t "Cannot find module 'left-pad'" = true)
    (h2 : pattern2 t = false) (h3 : pattern3 t = false) (h4 : pattern4 t = false)
    (h5 : pattern5 t = false) (h6 : pattern6 t = false) (h7 : pattern7 t = false)
    (h8 : pattern8 t = false)
    (hx : moduleMatch t.toList = some (ModMatch.grp "left-pad")) :
    (analyzeError pf t).issues =
        [{ type := "missing_package", severity := "high",
           message := "Missing package or module: left-pad", package := some "left-pad" }] ∧
      (analyzeError pf t).suggestedFixes =
        [{ type := "install_package", description := "Install missing package: left-pad",
           action := "npm install left-pad", autoFixable := true,
           package := some "left-pad", script := none }] ∧
      sContains "npm install left-pad" "left-pad" = true := by
  have hp1 : pattern1 t = true := pattern1_of_left_pad t hsub
  have hmp : missingPackage t = some "left-pad" := by
    unfold missingPackage
    rw [hx]
    simp
  refine ⟨?_, ?_, by decide⟩
  · unfold analyzeError issues1 issues2 issues3 issues4 issues5 issues6 issues7 issues8
    simp [hp1, h2, h3, h4, h5, h6, h7, h8, hmp, jsOrStr]
  · unfold analyzeError fixes1 fixes2 fixes3 fixes4 fixes5 fixes6 fixes7 fixes8
    simp [hp1, h2, h3, h4, h5, h6, h7, h8, hmp]
    decide

/-- C2, witnessed on the text `Cannot find module 'left-pad'` itself. -/
theorem left_pad_single_issue_witness :
    sContains "Cannot find module 'left-pad'" "Cannot find module 'left-pad'" = true ∧
      pattern2 "Cannot find module 'left-pad'" = false ∧
      pattern3 "Cannot find module 'left-pad'" = false ∧
      pattern4 "Cannot find module 'left-pad'" = false ∧
      pattern5 "Cannot find module 'left-pad'" = false ∧
      pattern6 "Cannot find module 'left-pad'" = false ∧
      pattern7 "Cannot find module 'left-pad'" = false ∧
      pattern8 "Cannot find module 'left-pad'" = false ∧
      moduleMatch ("Cannot find module 'left-pad'".toList) = some (ModMatch.grp "left-pad") ∧
      ((analyzeError PkgFile.missing "Cannot find module 'left-pad'").issues =
          [{ type := "missing_package", severity := "high",
             message := "Missing package or module: left-pad", package := some "left-pad" }] ∧
        (analyzeError PkgFile.missing "Cannot find module 'left-pad'").suggestedFixes =
          [{ type := "install_package", description := "Install missing package: left-pad",
             action := "npm install left-pad", autoFixable := true,
             package := some "left-pad", script := none }] ∧
        sContains "npm install left-pad" "left-pad" = true) :=
  ⟨by decide, by decide, by decide, by decide, by decide, by decide, by decide, by decide,
   by decide,
   left_pad_single_issue PkgFile.missing "Cannot find module 'left-pad'" (by decide) (by decide)
     (by decide) (by decide) (by decide) (by decide) (by decide) (by decide) (by decide)⟩

/-- C5: when the first build failure's analysis offers an auto-fixable
`increase_memory` fix and the user accepts, the retry runs with the
memory-limit command: the session's recorded commands are the original
detected command followed by the `NODE_OPTIONS=--max_old_space_size`
command, which differs from every command `detectProjectType` produces
and contains the memory-limit directive. -/
theorem memory_fix_swaps_command (build : Nat → String → Option String)
    (inst : String → Bool) (pf pfd : PkgFile) (hasIdx : Bool) (dirs : List String)
    (cmd errText : String)
    (hcmd : (detectProjectType pfd hasIdx dirs).buildCmd = some cmd)
    (hb : build 0 cmd = some errText)
    (hmem : ((analyzeError pf errText).suggestedFixes.filter (fun f => f.autoFixable)).any
        (fun f => f.type == "increase_memory") = true) :
    (buildWithAutoFix build true inst pf cmd).cmds =
        [cmd, "NODE_OPTIONS=--max_old_space_size=4096 npm run build"] ∧
      cmd ≠ "NODE_OPTIONS=--max_old_space_size=4096 npm run build" ∧
      sContains "NODE_OPTIONS=--max_old_space_size=4096 npm run build" "max_old_space_size" =
        true := by
  obtain ⟨mf, hmf, hmft⟩ := List.any_eq_true.mp hmem
  have hmftype : mf.type = "increase_memory" := by simpa using hmft
  have hmfix : mf ∈ (analyzeError pf errText).suggestedFixes :=
    (List.mem_filter.mp hmf).1
  obtain ⟨haction, hp7, hauto⟩ := fix_increase_memory_mem pf errText mf hmfix hmftype
  have hissues := issues_pos_of_pattern7 pf errText hp7
  have hfixpos : (analyzeError pf errText).suggestedFixes.length > 0 :=
    List.length_pos.mpr (List.ne_nil_of_mem hmfix)
  have hfilpos :
      ((analyzeError pf errText).suggestedFixes.filter (fun f => f.autoFixable)).length > 0 :=
    List.length_pos.mpr (List.ne_nil_of_mem hmf)
  have happ : 0 < (applyFixList inst pf
      ((analyzeError pf errText).suggestedFixes.filter (fun f => f.autoFixable))).1 :=
    applyFixList_pos inst pf _ ⟨mf, hmf, hmftype⟩
  have hfs : (((analyzeError pf errText).suggestedFixes.filter
      (fun f => f.autoFixable)).find? (fun f => f.type == "increase_memory")).isSome := by
    rw [List.find?_isSome]
    exact ⟨mf, hmf, hmft⟩
  obtain ⟨g, hg⟩ := Option.isSome_iff_exists.mp hfs
  have hgmem : g ∈ (analyzeError pf errText).suggestedFixes :=
    (List.mem_filter.mp (List.mem_of_find?_eq_some hg)).1
  have hgt : g.type = "increase_memory" := by simpa using List.find?_some hg
  obtain ⟨hgaction, _, _⟩ := fix_increase_memory_mem pf errText g hgmem hgt
  refine ⟨?_, ?_, by decide⟩
  · unfold buildWithAutoFix orchLoop
    simp only [hb, List.nil_append]
    split_ifs <;> try omega
    · rw [hg]
      simp only [Nat.zero_add]
      rw [orchLoop_one_cmds, hgaction]
      rfl
  · rcases detect_buildCmd pfd hasIdx dirs cmd hcmd with h | h <;> subst h <;> decide


/-- C5, witnessed on a React project whose build dies of heap
exhaustion on the first attempt. -/
theorem memory_fix_swaps_command_witness :
    (detectProjectType (PkgFile.parsed ⟨[("react-scripts", "5.0.0")], [], none⟩) false
          []).buildCmd = some "npm run build" ∧
      (fun (n : Nat) (_ : String) =>
          if n == 0 then some "FATAL ERROR: JavaScript heap out of memory" else none) 0
          "npm run build" = some "FATAL ERROR: JavaScript heap out of memory" ∧
      ((analyzeError PkgFile.missing
            "FATAL ERROR: JavaScript heap out of memory").suggestedFixes.filter
          (fun f => f.autoFixable)).any (fun f => f.type == "increase_memory") = true ∧
      ((buildWithAutoFix
            (fun n _ => if n == 0 then some "FATAL ERROR: JavaScript heap out of memory"
              else none) true (fun _ => true) PkgFile.missing "npm run build").cmds =
          ["npm run build", "NODE_OPTIONS=--max_old_space_size=4096 npm run build"] ∧
        "npm run build" ≠ "NODE_OPTIONS=--max_old_space_size=4096 npm run build" ∧
        sContains "NODE_OPTIONS=--max_old_space_size=4096 npm run build" "max_old_space_size" =
          true) :=
  ⟨by decide, by decide, by decide,
   memory_fix_swaps_command
     (fun n _ => if n == 0 then some "FATAL ERROR: JavaScript heap out of memory" else none)
     (fun _ => true) PkgFile.missing (PkgFile.parsed ⟨[("react-scripts", "5.0.0")], [], none⟩)
     false [] "npm run build" "FATAL ERROR: JavaScript heap out of memory" (by decide)
     (by decide) (by decide)⟩


/-- Replacing values at key `k` touches no entry when no key is `k`. -/
theorem filter_map_keep_nil (k v : String) :
    ∀ (s : List (String × String)), (∀ p ∈ s, (p.1 == k) = false) →
      (s.map (fun p => if p.1 == k then (k, v) else p)).filter (fun p => p.1 == k) = [] := by
  intro s
  induction s with
  | nil => intro _; rfl
  | cons a as ih =>
    intro h
    have ha := h a (List.mem_cons_self a as)
    simp only [List.map_cons, ha, Bool.false_eq_true, if_false, List.filter_cons, ha]
    exact ih (fun p hp => h p (List.mem_cons_of_mem a hp))

/-- Replacing the value at key `k` in an object with at most one `k`
entry leaves exactly one `(k, v)` entry when one existed. -/
theorem filter_map_setKey (k v : String) :
    ∀ (s : List (String × String)),
      ((s.filter (fun p => p.1 == k)).length ≤ 1) →
      (s.map (fun p => if p.1 == k then (k, v) else p)).filter (fun p => p.1 == k) =
        if s.any (fun p => p.1 == k) then [(k, v)] else [] := by
  intro s
  induction s with
  | nil => intro _; rfl
  | cons a as ih =>
    intro hlen
    by_cases ha : (a.1 == k) = true
    · have hrest : (as.filter (fun p => p.1 == k)).length = 0 := by
        simp only [List.filter_cons, ha, if_true, List.length_cons] at hlen
        omega
      have hnil : as.filter (fun p => p.1 == k) = [] := List.length_eq_zero.mp hrest
      have hall : ∀ p ∈ as, (p.1 == k) = false := by
        intro p hp
        by_contra hc
        have : p ∈ as.filter (fun p => p.1 == k) :=
          List.mem_filter.mpr ⟨hp, by simpa using hc⟩
        rw [hnil] at this
        cases this
      simp only [List.map_cons, ha, if_true, List.filter_cons, List.any_cons, ha,
        Bool.true_or, if_true]
      simp only [show ((k, v).1 == k) = true by simp, if_true]
      rw [filter_map_keep_nil k v as hall]
    · have ha' : (a.1 == k) = false := by simpa using ha
      have hlen' : ((as.filter (fun p => p.1 == k)).length ≤ 1) := by
        simp only [List.filter_cons, ha', Bool.false_eq_true, if_false] at hlen
        exact hlen
      simp only [List.map_cons, ha', Bool.false_eq_true, if_false, List.filter_cons, ha',
        List.any_cons, Bool.false_or]
      exact ih hlen'

/-- `{...obj, k: v}` on an object with at most one `k` entry has exactly
the single entry `(k, v)` at key `k`. -/
theorem filter_setKey (k v : String) (s : List (String × String))
    (hlen : (s.filter (fun p => p.1 == k)).length ≤ 1) :
    (setKey s k v).filter (fun p => p.1 == k) = [(k, v)] := by
  unfold setKey
  by_cases ha : s.any (fun p => p.1 == k) = true
  · rw [if_pos ha, filter_map_setKey k v s hlen, if_pos ha]
  · have ha' : s.any (fun p => p.1 == k) = false := Bool.eq_false_iff.mpr ha
    have hnil : s.filter (fun p => p.1 == k) = [] :=
      List.filter_eq_nil_iff.mpr (List.any_eq_false.mp ha')
    have hneg : ¬ s.any (fun p => p.1 == k) = true := by
      rw [ha']
      simp
    rw [if_neg hneg]
    rw [List.filter_append, hnil]
    simp


/-- C7: applying an `add_build_script` fix twice with the same
single-key script fragment reports success both times and leaves the
manifest's `scripts` section with exactly one entry for that key, whose
value is the fragment's value.  The `≤ 1` hypothesis is the JSON-object
invariant: `JSON.parse` yields at most one entry per key. -/
theorem addBuildScript_idempotent (inst : String → Bool) (pj : Manifest) (k v : String)
    (f : Fix) (htype : f.type = "add_build_script") (hscript : f.script = some [(k, v)])
    (hcount : ((pj.scripts.getD []).filter (fun p => p.1 == k)).length ≤ 1) :
    (applyFix inst (PkgFile.parsed pj) f).1 = true ∧
      (applyFix inst (applyFix inst (PkgFile.parsed pj) f).2 f).1 = true ∧
      ∃ pj2, (applyFix inst (applyFix inst (PkgFile.parsed pj) f).2 f).2 =
          PkgFile.parsed pj2 ∧
        (pj2.scripts.getD []).filter (fun p => p.1 == k) = [(k, v)] := by
  have e1 : applyFix inst (PkgFile.parsed pj) f =
      (true, PkgFile.parsed
        { pj with scripts := some (setKey (pj.scripts.getD []) k v) }) := by
    unfold applyFix
    rw [htype, hscript]
    simp [mergeObj]
  have h1 : ((setKey (pj.scripts.getD []) k v).filter (fun p => p.1 == k)).length ≤ 1 := by
    rw [filter_setKey k v _ hcount]
    simp
  have e2 : applyFix inst
        (PkgFile.parsed { pj with scripts := some (setKey (pj.scripts.getD []) k v) }) f =
      (true, PkgFile.parsed
        { pj with scripts := some (setKey (setKey (pj.scripts.getD []) k v) k v) }) := by
    unfold applyFix
    rw [htype, hscript]
    simp [mergeObj]
  rw [e1]
  simp only [e2]
  refine ⟨trivial, trivial, _, rfl, ?_⟩
  simp only [Option.getD_some]
  exact filter_setKey k v _ h1

/-- C7, witnessed on a React manifest with an unrelated `test` script. -/
theorem addBuildScript_idempotent_witness :
    sampleBuildScriptFix.type = "add_build_script" ∧
      sampleBuildScriptFix.script = some [("build", "react-scripts build")] ∧
      ((sampleManifest.scripts.getD []).filter (fun p => p.1 == "build")).length ≤ 1 ∧
      ((applyFix (fun _ => true) (PkgFile.parsed sampleManifest) sampleBuildScriptFix).1 =
          true ∧
        (applyFix (fun _ => true)
            (applyFix (fun _ => true) (PkgFile.parsed sampleManifest)
              sampleBuildScriptFix).2 sampleBuildScriptFix).1 = true ∧
        ∃ pj2, (applyFix (fun _ => true)
              (applyFix (fun _ => true) (PkgFile.parsed sampleManifest)
                sampleBuildScriptFix).2 sampleBuildScriptFix).2 = PkgFile.parsed pj2 ∧
          (pj2.scripts.getD []).filter (fun p => p.1 == "build") =
            [("build", "react-scripts build")]) :=
  ⟨rfl, rfl, by decide,
   addBuildScript_idempotent (fun _ => true) sampleManifest "build" "react-scripts build"
     sampleBuildScriptFix rfl rfl (by decide)⟩

/-- C10: with no `package.json` at the working directory, `applyFix` on
an `add_build_script` fix returns `false` and leaves the (absent)
manifest untouched; the embedding is total, so no exception escapes. -/
theorem addBuildScript_missing_manifest (inst : String → Bool) (f : Fix)
    (htype : f.type = "add_build_script") :
    applyFix inst PkgFile.missing f = (false, PkgFile.missing) := by
  unfold applyFix
  rw [htype]
  simp

/-- C10, witnessed on the engine's React build-script fix. -/
theorem addBuildScript_missing_manifest_witness :
    sampleBuildScriptFix.type = "add_build_script" ∧
      applyFix (fun _ => true) PkgFile.missing sampleBuildScriptFix =
        (false, PkgFile.missing) :=
  ⟨rfl, addBuildScript_missing_manifest (fun _ => true) sampleBuildScriptFix rfl⟩

end DeployEase
